import Mathlib

/-!
Verification of the streaming audio playback engine in
`src-tauri/src/audio/playback.rs` (hermeneia).

The engine consists of a shared atomic control block (`SharedPlaybackState`),
a single-producer/single-consumer ring buffer of `f32` samples, a decoder
thread (`run_decoder`) and a playback thread whose device callback consumes
samples (`run_playback_stream`), all driven through the `AudioPlayer` facade.

This file shallowly embeds those parts as executable Lean definitions and
proves (or refutes) the specification's claims about them.  Sample values are
only ever copied or zeroed by the engine (never arithmetically combined), so
the `f32` sample domain is modelled by `Int`; silence is the sample `0`.
-/

namespace Hermeneia

/-- The `f32` sample domain.  The playback engine copies or zeroes samples and
never does arithmetic on them, so an integer carrier is faithful. -/
abbrev Sample := Int

/-- `RING_BUFFER_SIZE` from playback.rs line 25:
5 seconds of audio at 48 kHz stereo. -/
def RING_BUFFER_SIZE : Nat := 48000 * 2 * 5

/-- Shallow embedding of `SharedPlaybackState` (playback.rs lines 28-38).
Every field of the Rust struct is an atomic; here each is a plain field and
thread interleavings are modelled by explicit step relations below.  Atomic
`u64` counters are modelled by `Nat` (no claim involves wraparound at 2^64). -/
structure SharedPlaybackState where
  is_playing : Bool
  current_frame : Nat
  total_frames : Nat
  sample_rate : Nat
  channels : Nat
  should_stop : Bool
  seek_to_frame : Nat
  seek_pending : Bool
  buffer_flush_pending : Bool
deriving Repr, DecidableEq

/-- `SharedPlaybackState::new` (playback.rs lines 41-53). -/
def SharedPlaybackState.new : SharedPlaybackState :=
  { is_playing := false
    current_frame := 0
    total_frames := 0
    sample_rate := 44100
    channels := 2
    should_stop := false
    seek_to_frame := 0
    seek_pending := false
    buffer_flush_pending := false }

/-- The SPSC ring buffer (`ringbuf::HeapRb<f32>`): a fixed capacity and the
occupied samples, oldest first. -/
structure RingBuffer where
  capacity : Nat
  data : List Sample
deriving Repr, DecidableEq

namespace RingBuffer

/-- `occupied_len()`: number of samples currently stored. -/
def occupied_len (rb : RingBuffer) : Nat := rb.data.length

/-- `push_slice(xs)`: append as many samples as fit, returning the count
accepted (fewer than requested when full, never blocking). -/
def push_slice (rb : RingBuffer) (xs : List Sample) : Nat × RingBuffer :=
  let n := min xs.length (rb.capacity - rb.data.length)
  (n, { rb with data := rb.data ++ xs.take n })

/-- `pop_slice` into a destination of length `n`: remove and return up to `n`
of the oldest samples (fewer when empty, never blocking). -/
def pop_slice (rb : RingBuffer) (n : Nat) : List Sample × RingBuffer :=
  (rb.data.take n, { rb with data := rb.data.drop n })

/-- `skip n`: discard up to `n` samples without copying. -/
def skip (rb : RingBuffer) (n : Nat) : RingBuffer :=
  { rb with data := rb.data.drop n }

end RingBuffer

/-- The state owned or seen by the device callback: the shared control block,
the ring-buffer consumer handle, and the `samples_consumed` counter
(playback.rs line 503). -/
structure ConsumerState where
  shared : SharedPlaybackState
  rb : RingBuffer
  samples_consumed : Nat
deriving Repr, DecidableEq

/-- Result of one device-callback invocation: the final contents of the
output buffer, the updated consumer state, and the number of times the
callback acquired the consumer `Mutex` (`consumer_clone.lock()`),
instrumenting the lock acquisitions that the source performs. -/
structure CallbackResult where
  output : List Sample
  state : ConsumerState
  locks : Nat
deriving Repr, DecidableEq

/-- An output buffer of `n` slots all filled with silence (`0.0`). -/
def silence (n : Nat) : List Sample := List.replicate n 0

/-- Shallow embedding of the device callback closure passed to
`build_output_stream` (playback.rs lines 514-591).  `bufLen` is `data.len()`.
Branches, in source order: paused ⇒ silence; `buffer_flush_pending` ⇒ lock,
skip everything occupied, reset `samples_consumed` to
`current_frame * channels`, clear the flag, silence; `seek_pending` ⇒
silence; otherwise lock and pop up to `bufLen` samples, update
`samples_consumed` and `current_frame = consumed / channels`, zero-fill any
shortfall. -/
def deviceCallback (st : ConsumerState) (bufLen : Nat) : CallbackResult :=
  let s := st.shared
  if s.is_playing = false then
    { output := silence bufLen, state := st, locks := 0 }
  else if s.buffer_flush_pending then
    let to_skip := st.rb.occupied_len
    let rb' := st.rb.skip to_skip
    let consumed' := s.current_frame * s.channels
    { output := silence bufLen
      state := { shared := { s with buffer_flush_pending := false }
                 rb := rb'
                 samples_consumed := consumed' }
      locks := 1 }
  else if s.seek_pending then
    { output := silence bufLen, state := st, locks := 0 }
  else
    let available := st.rb.occupied_len
    let to_read := min bufLen available
    if 0 < to_read then
      let res := st.rb.pop_slice to_read
      let consumed' := st.samples_consumed + res.1.length
      { output := res.1 ++ silence (bufLen - to_read)
        state := { shared := { s with current_frame := consumed' / s.channels }
                   rb := res.2
                   samples_consumed := consumed' }
        locks := 1 }
    else
      { output := silence bufLen, state := st, locks := 1 }

/-- Iterated device-callback invocations (one entry of `lens` per
invocation's output-buffer length), tracking only the evolving state. -/
def runCallbacks (st : ConsumerState) (lens : List Nat) : ConsumerState :=
  lens.foldl (fun s n => (deviceCallback s n).state) st

/-- Outcome of `format.seek(SeekMode::Accurate, ..)` in the decoder thread:
either the actual landed timestamp (`seeked.actual_ts`) or an error. -/
inductive SourceSeekResult where
  | ok (actual_ts : Nat)
  | err
deriving Repr, DecidableEq

/-- Result of the decoder's seek-request handling: the updated shared state
and whether `decoder.reset()` was called. -/
structure SeekOutcome where
  shared : SharedPlaybackState
  decoder_reset : Bool
deriving Repr, DecidableEq

/-- Shallow embedding of the decoder thread's seek-request servicing
(playback.rs lines 335-364).  On a successful source seek: store the actual
landed frame into `current_frame`, set `buffer_flush_pending`, call
`decoder.reset()`.  In both cases, finally store `seek_pending := false`. -/
def handleSeekRequest (s : SharedPlaybackState) (r : SourceSeekResult) : SeekOutcome :=
  match r with
  | .ok actual_ts =>
    let s := { s with current_frame := actual_ts, buffer_flush_pending := true }
    { shared := { s with seek_pending := false }, decoder_reset := true }
  | .err =>
    { shared := { s with seek_pending := false }, decoder_reset := false }

/-! ## File probing and the `AudioPlayer` facade -/

/-- Per-track codec parameters, as read by `probe_audio_file`
(playback.rs lines 241-257): whether the codec is `CODEC_TYPE_NULL`, and
the optional `sample_rate`, `channels.count()` and `n_frames` metadata. -/
structure ProbeTrack where
  codec_is_null : Bool
  sample_rate : Option Nat
  channels : Option Nat
  n_frames : Option Nat
deriving Repr, DecidableEq

/-- What the filesystem / symphonia probe layer yields for a path: the file
fails to open, the format probe fails, or probing succeeds with a track
list. -/
inductive ProbeInput where
  | openFail
  | formatFail
  | ok (tracks : List ProbeTrack)
deriving Repr, DecidableEq

/-- The error cases of `AudioError` reachable from `probe_audio_file`. -/
inductive AudioError where
  | fileOpen (path : String)
  | decodeFailed (msg : String)
deriving Repr, DecidableEq

/-- Shallow embedding of `probe_audio_file` (playback.rs lines 223-260):
open failure and probe failure are errors; the first track whose codec is
not `CODEC_TYPE_NULL` is selected, else "No audio track found"; a missing
sample rate is the error "No sample rate"; missing channel metadata
defaults to 2 and missing `n_frames` defaults to 0. -/
def probe_audio_file (path : String) (input : ProbeInput) :
    Except AudioError (Nat × Nat × Nat) :=
  match input with
  | .openFail => .error (.fileOpen path)
  | .formatFail => .error (.decodeFailed "Failed to probe")
  | .ok tracks =>
    match tracks.find? (fun tr => !tr.codec_is_null) with
    | none => .error (.decodeFailed "No audio track found")
    | some tr =>
      match tr.sample_rate with
      | none => .error (.decodeFailed "No sample rate")
      | some sr => .ok (sr, tr.channels.getD 2, tr.n_frames.getD 0)

/-- Shallow embedding of the `AudioPlayer` facade (playback.rs lines 60-79).
`state_id` records the allocation identity of the `Arc<SharedPlaybackState>`
(a fresh id is taken from `next_alloc` at each allocation site); `ring_id`
and `ring_capacity` likewise record the current session's `HeapRb`
allocation.  `decoder_thread` / `playback_thread` record whether a join
handle is held. -/
structure AudioPlayer where
  state : SharedPlaybackState
  state_id : Nat
  ring_id : Option Nat
  ring_capacity : Option Nat
  next_alloc : Nat
  decoder_thread : Bool
  playback_thread : Bool
  loaded_file : Option String
deriving Repr, DecidableEq

/-- `AudioPlayer::new` (playback.rs lines 72-79): the single place a
`SharedPlaybackState` is allocated. -/
def AudioPlayer.new : AudioPlayer :=
  { state := SharedPlaybackState.new
    state_id := 0
    ring_id := none
    ring_capacity := none
    next_alloc := 1
    decoder_thread := false
    playback_thread := false
    loaded_file := none }

/-- `AudioPlayer::stop` (playback.rs lines 171-190): set `should_stop`,
clear `is_playing`, join whichever thread handles are held, then reset
`current_frame` to 0.  The second component counts the `join()` calls
performed (zero when no threads are running, so the call does not block). -/
def AudioPlayer.stop (p : AudioPlayer) : AudioPlayer × Nat :=
  let s := { p.state with should_stop := true, is_playing := false }
  let joins := (if p.decoder_thread then 1 else 0) + (if p.playback_thread then 1 else 0)
  ({ p with state := { s with current_frame := 0 }
            decoder_thread := false
            playback_thread := false }, joins)

/-- Observable ordered events of a `play_file` call, used to state that
metadata is stored strictly before either thread is spawned. -/
inductive PlayEvent where
  | stoppedPrevious
  | storedMetadata (sr ch total : Nat)
  | resetFlags
  | createdRing (id capacity : Nat)
  | spawnedDecoder
  | spawnedPlayback
deriving Repr, DecidableEq

/-- Shallow embedding of `AudioPlayer::play_file` (playback.rs lines
82-141): stop any previous session; record the loaded path; probe the file
(an error here returns synchronously, before anything is spawned); store
the probed metadata into the existing shared state (`Arc::clone` — no new
`SharedPlaybackState` is allocated, so `state_id` is unchanged); reset
`should_stop`, `current_frame`, `seek_pending` and set `is_playing`;
allocate a fresh `HeapRb` of capacity `RING_BUFFER_SIZE`; spawn the decoder
and playback threads.  The event list records the order of these actions. -/
def AudioPlayer.play_file (p : AudioPlayer) (path : String) (input : ProbeInput) :
    Except AudioError AudioPlayer × List PlayEvent :=
  let p0 := (AudioPlayer.stop p).1
  let p1 := { p0 with loaded_file := some path }
  match probe_audio_file path input with
  | .error e => (.error e, [.stoppedPrevious])
  | .ok (sr, ch, total) =>
    let st0 := { p1.state with sample_rate := sr, channels := ch, total_frames := total }
    let st1 := { st0 with should_stop := false
                          current_frame := 0
                          seek_pending := false
                          is_playing := true }
    let rid := p1.next_alloc
    let p2 := { p1 with state := st1
                        ring_id := some rid
                        ring_capacity := some RING_BUFFER_SIZE
                        next_alloc := rid + 1
                        decoder_thread := true
                        playback_thread := true }
    (.ok p2,
     [.stoppedPrevious, .storedMetadata sr ch total, .resetFlags,
      .createdRing rid RING_BUFFER_SIZE, .spawnedDecoder, .spawnedPlayback])

/-- `AudioPlayer::pause` (playback.rs lines 144-147). -/
def AudioPlayer.pause (p : AudioPlayer) : AudioPlayer :=
  { p with state := { p.state with is_playing := false } }

/-- `AudioPlayer::resume` (playback.rs lines 150-153). -/
def AudioPlayer.resume (p : AudioPlayer) : AudioPlayer :=
  { p with state := { p.state with is_playing := true } }

/-- `AudioPlayer::toggle` (playback.rs lines 156-160). -/
def AudioPlayer.toggle (p : AudioPlayer) : AudioPlayer :=
  { p with state := { p.state with is_playing := !p.state.is_playing } }

/-- `AudioPlayer::seek` (playback.rs lines 163-168) with the target frame
`(time_seconds * sample_rate) as u64` already computed (the f64 conversion
itself is floating point and carries no claim): store `seek_to_frame`, then
set `seek_pending`. -/
def AudioPlayer.seekToFrame (p : AudioPlayer) (frame : Nat) : AudioPlayer :=
  { p with state := { p.state with seek_to_frame := frame, seek_pending := true } }

/-! ## The playback session as a small-step transition system

One `play_file` call spawns a decoder thread and a playback thread sharing
one `SharedPlaybackState` and one ring buffer.  `Session` is the joint
state; `Step` enumerates the atomic actions each party performs, read off
the source: the facade's transport operations, the decoder thread's outer
loop (stop check, seek servicing, packet decode, the inner push-retry
loop), and the device callback.  The decode source is modelled by its
actual frame count `src_total`; `src_pos` is the decode session's current
frame position and `pending` the decoder-local remainder of the current
decoded block (the slice the inner retry loop is still writing). -/

structure Session where
  shared : SharedPlaybackState
  rb : RingBuffer
  samples_consumed : Nat
  pending : List Sample
  src_pos : Nat
  decoder_done : Bool
  playback_done : Bool
deriving Repr, DecidableEq

/-- Session state right after `play_file` launched the threads
(playback.rs lines 96-114): metadata stored, flags reset, `is_playing`
set, fresh empty ring buffer of capacity `RING_BUFFER_SIZE`. -/
def initSession (sr ch total : Nat) : Session :=
  { shared := { is_playing := true
                current_frame := 0
                total_frames := total
                sample_rate := sr
                channels := ch
                should_stop := false
                seek_to_frame := 0
                seek_pending := false
                buffer_flush_pending := false }
    rb := { capacity := RING_BUFFER_SIZE, data := [] }
    samples_consumed := 0
    pending := []
    src_pos := 0
    decoder_done := false
    playback_done := false }

/-- Facade `pause()`. -/
def pauseStep (t : Session) : Session :=
  { t with shared := { t.shared with is_playing := false } }

/-- Facade `resume()`. -/
def resumeStep (t : Session) : Session :=
  { t with shared := { t.shared with is_playing := true } }

/-- Facade `toggle()`. -/
def toggleStep (t : Session) : Session :=
  { t with shared := { t.shared with is_playing := !t.shared.is_playing } }

/-- Facade `seek()`: store the target frame, set `seek_pending`. -/
def seekReqStep (t : Session) (f : Nat) : Session :=
  { t with shared := { t.shared with seek_to_frame := f, seek_pending := true } }

/-- Facade `stop()`, flag phase: set `should_stop`, clear `is_playing`
(playback.rs lines 173-174). -/
def stopFlagStep (t : Session) : Session :=
  { t with shared := { t.shared with should_stop := true, is_playing := false } }

/-- Facade `stop()`, final phase after both joins: `current_frame := 0`
(playback.rs line 188). -/
def stopResetStep (t : Session) : Session :=
  { t with shared := { t.shared with current_frame := 0 } }

/-- Decoder thread services a pending seek and the source seek succeeds,
landing at frame `landed` (playback.rs lines 335-364): apply
`handleSeekRequest` and move the decode position; the remainder of any
block the inner loop was writing was discarded by its seek-flag break
(line 404). -/
def decoderSeekOkStep (t : Session) (landed : Nat) : Session :=
  { t with shared := (handleSeekRequest t.shared (.ok landed)).shared
           pending := []
           src_pos := landed }

/-- Decoder thread services a pending seek and the source seek fails:
only `seek_pending` is cleared; decoding continues from the prior
position. -/
def decoderSeekErrStep (t : Session) : Session :=
  { t with shared := (handleSeekRequest t.shared .err).shared
           pending := [] }

/-- Decoder thread decodes the next packet into a block of `k` frames
(`samples.length = k * channels` interleaved samples) and enters the
push loop with it; the decode source advances by `k` frames. -/
def decoderDecodeStep (t : Session) (k : Nat) (samples : List Sample) : Session :=
  { t with pending := samples, src_pos := t.src_pos + k }

/-- Decoder thread hits a wrong-track packet or a failing `decode`
(playback.rs lines 376-386): the packet's `k` frames are skipped,
nothing is pushed. -/
def decoderBadPacketStep (t : Session) (k : Nat) : Session :=
  { t with src_pos := t.src_pos + k }

/-- One iteration of the decoder's push-retry loop (playback.rs lines
401-418) when neither stop nor seek is observed: `push_slice` the
remaining samples, keep what was not accepted (a zero-accept iteration
just sleeps 10 ms and leaves the state unchanged). -/
def decoderPushStep (t : Session) : Session :=
  let res := t.rb.push_slice t.pending
  { t with rb := res.2, pending := t.pending.drop res.1 }

/-- Decoder thread sees `next_packet` fail (end of stream, playback.rs
lines 367-374): clear `is_playing` and exit the loop. -/
def decoderEosStep (t : Session) : Session :=
  { t with shared := { t.shared with is_playing := false }
           decoder_done := true }

/-- Decoder thread observes `should_stop` (at the outer-loop head, line
328, or at the inner-loop re-check, line 404, which discards the block
remainder) and exits. -/
def decoderExitStep (t : Session) : Session :=
  { t with pending := [], decoder_done := true }

/-- Playback thread's outer wait loop observes `should_stop`
(playback.rs lines 606-612) and exits, dropping the stream. -/
def playbackExitStep (t : Session) : Session :=
  { t with playback_done := true }

/-- One device-callback invocation with an output buffer of `bufLen`
slots. -/
def callbackStep (t : Session) (bufLen : Nat) : Session :=
  let r := deviceCallback
    { shared := t.shared, rb := t.rb, samples_consumed := t.samples_consumed } bufLen
  { t with shared := r.state.shared
           rb := r.state.rb
           samples_consumed := r.state.samples_consumed }

/-- The atomic actions of one playback session, with their enabling
conditions read off the source.  `src_total` is the number of frames the
decode source actually yields; a successful source seek lands within the
stream (`landed ≤ src_total`). -/
inductive Step (src_total : Nat) : Session → Session → Prop where
  | pause (t : Session) : Step src_total t (pauseStep t)
  | resume (t : Session) : Step src_total t (resumeStep t)
  | toggle (t : Session) : Step src_total t (toggleStep t)
  | seekRequest (t : Session) (f : Nat) : Step src_total t (seekReqStep t f)
  | stopFlags (t : Session) : Step src_total t (stopFlagStep t)
  | stopReset (t : Session)
      (hd : t.decoder_done = true) (hp : t.playback_done = true) :
      Step src_total t (stopResetStep t)
  | decoderSeekOk (t : Session) (landed : Nat)
      (hstop : t.shared.should_stop = false)
      (hpend : t.shared.seek_pending = true)
      (hdone : t.decoder_done = false)
      (hlanded : landed ≤ src_total) :
      Step src_total t (decoderSeekOkStep t landed)
  | decoderSeekErr (t : Session)
      (hstop : t.shared.should_stop = false)
      (hpend : t.shared.seek_pending = true)
      (hdone : t.decoder_done = false) :
      Step src_total t (decoderSeekErrStep t)
  | decoderDecode (t : Session) (k : Nat) (samples : List Sample)
      (hstop : t.shared.should_stop = false)
      (hpend : t.shared.seek_pending = false)
      (hdone : t.decoder_done = false)
      (hempty : t.pending = [])
      (hsrc : t.src_pos + k ≤ src_total)
      (hlen : samples.length = k * t.shared.channels) :
      Step src_total t (decoderDecodeStep t k samples)
  | decoderBadPacket (t : Session) (k : Nat)
      (hstop : t.shared.should_stop = false)
      (hpend : t.shared.seek_pending = false)
      (hdone : t.decoder_done = false)
      (hempty : t.pending = [])
      (hsrc : t.src_pos + k ≤ src_total) :
      Step src_total t (decoderBadPacketStep t k)
  | decoderPush (t : Session)
      (hstop : t.shared.should_stop = false)
      (hpend : t.shared.seek_pending = false)
      (hdone : t.decoder_done = false) :
      Step src_total t (decoderPushStep t)
  | decoderEos (t : Session)
      (hstop : t.shared.should_stop = false)
      (hpend : t.shared.seek_pending = false)
      (hdone : t.decoder_done = false)
      (hempty : t.pending = []) :
      Step src_total t (decoderEosStep t)
  | decoderExit (t : Session)
      (hstop : t.shared.should_stop = true)
      (hdone : t.decoder_done = false) :
      Step src_total t (decoderExitStep t)
  | playbackExit (t : Session)
      (hstop : t.shared.should_stop = true)
      (hpdone : t.playback_done = false) :
      Step src_total t (playbackExitStep t)
  | callbackRun (t : Session) (bufLen : Nat)
      (hpdone : t.playback_done = false) :
      Step src_total t (callbackStep t bufLen)

/-- States of one session reachable from the post-`play_file` state. -/
def ReachableSession (src_total sr ch total : Nat) (t : Session) : Prop :=
  Relation.ReflTransGen (Step src_total) (initSession sr ch total) t

/-! ## Conservation invariant of a session

The engine never clamps `current_frame`; the position bound comes from
conservation: samples consumed never exceed samples produced, and the
decode source yields at most `src_total` frames.  While a flush is
pending the ring buffer holds stale data that the next callback will
discard wholesale, so the accounting switches to the landed frame. -/

def SessionInv (src_total : Nat) (t : Session) : Prop :=
  t.src_pos ≤ src_total ∧
  src_total ≤ t.shared.total_frames ∧
  t.shared.current_frame ≤ t.shared.total_frames ∧
  (t.shared.buffer_flush_pending = false →
    t.samples_consumed + t.rb.data.length + t.pending.length ≤
      t.src_pos * t.shared.channels) ∧
  (t.shared.buffer_flush_pending = true →
    t.shared.current_frame * t.shared.channels + t.pending.length ≤
      t.src_pos * t.shared.channels)

/-! ## Concrete states used by witnesses and counterexamples -/

/-- A playing consumer state with a flush pending and three stale samples. -/
def c1State : ConsumerState :=
  { shared := { is_playing := true, current_frame := 3, total_frames := 10,
                sample_rate := 44100, channels := 2, should_stop := false,
                seek_to_frame := 0, seek_pending := false, buffer_flush_pending := true }
    rb := { capacity := 8, data := [5, 6, 7] }
    samples_consumed := 1 }

/-- A paused consumer state with samples still buffered. -/
def c2State : ConsumerState :=
  { shared := { is_playing := false, current_frame := 2, total_frames := 10,
                sample_rate := 44100, channels := 2, should_stop := false,
                seek_to_frame := 0, seek_pending := false, buffer_flush_pending := false }
    rb := { capacity := 8, data := [9, 8, 7, 6] }
    samples_consumed := 4 }

/-- Session after the decoder decoded one 1-frame stereo block: the source
has one real frame but its metadata reported no frame count, so
`play_file` stored `total_frames = 0` (`n_frames.unwrap_or(0)`). -/
def c4Step1 : Session := decoderDecodeStep (initSession 44100 2 0) 1 [1, 1]

/-- Session after the decoder's push loop wrote that block. -/
def c4Step2 : Session := decoderPushStep c4Step1

/-- Session after one device callback consumed both samples. -/
def c4Final : Session := callbackStep c4Step2 2

/-- A probe input for an ordinary stereo file. -/
def stereoProbe : ProbeInput :=
  .ok [{ codec_is_null := false, sample_rate := some 44100,
         channels := some 2, n_frames := some 441000 }]

/-- Player after `new()` followed by a successful `play_file`. -/
def c5AfterFirstPlay : AudioPlayer :=
  match ((AudioPlayer.new).play_file "one.mp3" stereoProbe).1 with
  | .ok q => q
  | .error _ => AudioPlayer.new

/-- Player after the subsequent `stop()`. -/
def c5AfterStop : AudioPlayer := (c5AfterFirstPlay.stop).1

/-- Player after a second successful `play_file` on the same object. -/
def c5AfterSecondPlay : AudioPlayer :=
  match (c5AfterStop.play_file "two.mp3" stereoProbe).1 with
  | .ok q => q
  | .error _ => c5AfterStop

/-- A playing consumer state with no pending flush or seek and an empty
buffer (an underrun). -/
def c6State : ConsumerState :=
  { shared := { is_playing := true, current_frame := 0, total_frames := 10,
                sample_rate := 44100, channels := 2, should_stop := false,
                seek_to_frame := 0, seek_pending := false, buffer_flush_pending := false }
    rb := { capacity := 8, data := [] }
    samples_consumed := 0 }

/-- A session state right after the facade's `stop()` set the flags. -/
def c7Stopped : Session := stopFlagStep (initSession 44100 2 100)

/-- A probed track with 7 channels; `probe_audio_file` accepts any channel
count the codec reports. -/
def c9SevenChannelTrack : ProbeTrack :=
  { codec_is_null := false, sample_rate := some 44100,
    channels := some 7, n_frames := some 1000 }

/-- Player after a successful stereo `play_file` from `new()`. -/
def c9Player : AudioPlayer :=
  match ((AudioPlayer.new).play_file "a.wav" stereoProbe).1 with
  | .ok q => q
  | .error _ => AudioPlayer.new

theorem natDivLeOfLeMul {a b c : Nat} (h : a ≤ b * c) : a / c ≤ b := by
  rcases Nat.eq_zero_or_pos c with hc | hc
  · subst hc; simp
  · calc a / c ≤ b * c / c := Nat.div_le_div_right h
      _ = b := Nat.mul_div_cancel b hc

theorem sessionInv_init {src_total sr ch total : Nat} (h : src_total ≤ total) :
    SessionInv src_total (initSession sr ch total) := by
  refine ⟨Nat.zero_le _, h, Nat.zero_le _, ?_, ?_⟩ <;> intro hf <;> simp [initSession] at *

theorem callbackStep_paused {t : Session} (bufLen : Nat)
    (hp : t.shared.is_playing = false) :
    callbackStep t bufLen = t := by
  simp [callbackStep, deviceCallback, hp]

theorem callbackStep_flush {t : Session} (bufLen : Nat)
    (hp : t.shared.is_playing = true) (hfl : t.shared.buffer_flush_pending = true) :
    callbackStep t bufLen =
      { t with shared := { t.shared with buffer_flush_pending := false }
               rb := { capacity := t.rb.capacity, data := [] }
               samples_consumed := t.shared.current_frame * t.shared.channels } := by
  simp [callbackStep, deviceCallback, hp, hfl, RingBuffer.skip, RingBuffer.occupied_len]

theorem callbackStep_seekPending {t : Session} (bufLen : Nat)
    (hp : t.shared.is_playing = true) (hfl : t.shared.buffer_flush_pending = false)
    (hsk : t.shared.seek_pending = true) :
    callbackStep t bufLen = t := by
  simp [callbackStep, deviceCallback, hp, hfl, hsk]

theorem callbackStep_pop {t : Session} (bufLen : Nat)
    (hp : t.shared.is_playing = true) (hfl : t.shared.buffer_flush_pending = false)
    (hsk : t.shared.seek_pending = false) (hr : 0 < min bufLen t.rb.data.length) :
    callbackStep t bufLen =
      { t with shared := { t.shared with current_frame :=
                  (t.samples_consumed + min bufLen t.rb.data.length) / t.shared.channels }
               rb := { capacity := t.rb.capacity
                       data := t.rb.data.drop (min bufLen t.rb.data.length) }
               samples_consumed := t.samples_consumed + min bufLen t.rb.data.length } := by
  have hm : min (min bufLen t.rb.data.length) t.rb.data.length =
      min bufLen t.rb.data.length := by omega
  simp [callbackStep, deviceCallback, hp, hfl, hsk, RingBuffer.occupied_len,
    RingBuffer.pop_slice, hr, hm]

theorem callbackStep_underrun {t : Session} (bufLen : Nat)
    (hp : t.shared.is_playing = true) (hfl : t.shared.buffer_flush_pending = false)
    (hsk : t.shared.seek_pending = false) (hr : ¬ 0 < min bufLen t.rb.data.length) :
    callbackStep t bufLen = t := by
  simp [callbackStep, deviceCallback, hp, hfl, hsk, RingBuffer.occupied_len, hr]

theorem sessionInv_step {src_total : Nat} {t t' : Session}
    (hstep : Step src_total t t') (hinv : SessionInv src_total t) :
    SessionInv src_total t' := by
  obtain ⟨h1, h2, h3, h4, h5⟩ := hinv
  cases hstep with
  | pause => exact ⟨h1, h2, h3, h4, h5⟩
  | resume => exact ⟨h1, h2, h3, h4, h5⟩
  | toggle => exact ⟨h1, h2, h3, h4, h5⟩
  | seekRequest f => exact ⟨h1, h2, h3, h4, h5⟩
  | stopFlags => exact ⟨h1, h2, h3, h4, h5⟩
  | stopReset hd hp =>
      refine ⟨h1, h2, Nat.zero_le _, h4, fun hf => ?_⟩
      have h := h5 hf
      have hz : (0 : Nat) * t.shared.channels + t.pending.length ≤
          t.shared.current_frame * t.shared.channels + t.pending.length := by
        simp
      exact le_trans hz h
  | decoderSeekOk landed hstop hpend hdone hlanded =>
      refine ⟨hlanded, h2, le_trans hlanded h2, ?_, ?_⟩ <;>
        simp [decoderSeekOkStep, handleSeekRequest]
  | decoderSeekErr hstop hpend hdone =>
      refine ⟨h1, h2, h3, fun hf => ?_, fun hf => ?_⟩ <;>
        simp only [decoderSeekErrStep, handleSeekRequest] at hf ⊢
      · have h := h4 hf
        have : t.samples_consumed + t.rb.data.length + List.length ([] : List Sample) ≤
            t.samples_consumed + t.rb.data.length + t.pending.length := by simp
        exact le_trans this h
      · have h := h5 hf
        have : t.shared.current_frame * t.shared.channels + List.length ([] : List Sample) ≤
            t.shared.current_frame * t.shared.channels + t.pending.length := by simp
        exact le_trans this h
  | decoderDecode k samples hstop hpend hdone hempty hsrc hlen =>
      refine ⟨hsrc, h2, h3, fun hf => ?_, fun hf => ?_⟩ <;>
        simp only [decoderDecodeStep] at hf ⊢
      · have h := h4 hf
        rw [hempty] at h
        simp only [List.length_nil, Nat.add_zero] at h
        calc t.samples_consumed + t.rb.data.length + samples.length
            = t.samples_consumed + t.rb.data.length + k * t.shared.channels := by rw [hlen]
          _ ≤ t.src_pos * t.shared.channels + k * t.shared.channels :=
              Nat.add_le_add_right h _
          _ = (t.src_pos + k) * t.shared.channels := (Nat.add_mul _ _ _).symm
      · have h := h5 hf
        rw [hempty] at h
        simp only [List.length_nil, Nat.add_zero] at h
        calc t.shared.current_frame * t.shared.channels + samples.length
            = t.shared.current_frame * t.shared.channels + k * t.shared.channels := by rw [hlen]
          _ ≤ t.src_pos * t.shared.channels + k * t.shared.channels :=
              Nat.add_le_add_right h _
          _ = (t.src_pos + k) * t.shared.channels := (Nat.add_mul _ _ _).symm
  | decoderBadPacket k hstop hpend hdone hempty hsrc =>
      have hmono : t.src_pos * t.shared.channels ≤
          (t.src_pos + k) * t.shared.channels :=
        Nat.mul_le_mul_right _ (Nat.le_add_right _ _)
      exact ⟨hsrc, h2, h3, fun hf => le_trans (h4 hf) hmono,
             fun hf => le_trans (h5 hf) hmono⟩
  | decoderPush hstop hpend hdone =>
      refine ⟨h1, h2, h3, fun hf => ?_, fun hf => ?_⟩ <;>
        simp only [decoderPushStep, RingBuffer.push_slice, List.length_append,
          List.length_take, List.length_drop] at hf ⊢
      · have h := h4 hf
        have hE : t.samples_consumed +
            (t.rb.data.length +
              min (min t.pending.length (t.rb.capacity - t.rb.data.length)) t.pending.length) +
            (t.pending.length - min t.pending.length (t.rb.capacity - t.rb.data.length)) =
            t.samples_consumed + t.rb.data.length + t.pending.length := by omega
        rw [hE]; exact h
      · have h := h5 hf
        have hE : t.pending.length - min t.pending.length (t.rb.capacity - t.rb.data.length) ≤
            t.pending.length := by omega
        exact le_trans (Nat.add_le_add_left hE _) h
  | decoderEos hstop hpend hdone hempty => exact ⟨h1, h2, h3, h4, h5⟩
  | decoderExit hstop hdone =>
      refine ⟨h1, h2, h3, fun hf => ?_, fun hf => ?_⟩ <;>
        simp only [decoderExitStep] at hf ⊢
      · have h := h4 hf
        have : t.samples_consumed + t.rb.data.length + List.length ([] : List Sample) ≤
            t.samples_consumed + t.rb.data.length + t.pending.length := by simp
        exact le_trans this h
      · have h := h5 hf
        have : t.shared.current_frame * t.shared.channels + List.length ([] : List Sample) ≤
            t.shared.current_frame * t.shared.channels + t.pending.length := by simp
        exact le_trans this h
  | playbackExit hstop hpdone => exact ⟨h1, h2, h3, h4, h5⟩
  | callbackRun bufLen hpdone =>
      rcases Bool.eq_false_or_eq_true t.shared.is_playing with hp | hp
      · rcases Bool.eq_false_or_eq_true t.shared.buffer_flush_pending with hfl | hfl
        · -- flush path: drain everything, reset the consumed counter
          rw [callbackStep_flush bufLen hp hfl]
          refine ⟨h1, h2, h3, fun _ => ?_, fun hf => absurd hf (by simp)⟩
          simpa using h5 hfl
        · rcases Bool.eq_false_or_eq_true t.shared.seek_pending with hsk | hsk
          · rw [callbackStep_seekPending bufLen hp hfl hsk]
            exact ⟨h1, h2, h3, h4, h5⟩
          · by_cases hr : 0 < min bufLen t.rb.data.length
            · -- normal read path: pop `min bufLen occupied` samples
              rw [callbackStep_pop bufLen hp hfl hsk hr]
              have h := h4 hfl
              refine ⟨h1, h2, ?_, fun _ => ?_, fun hf => absurd hf (by simp [hfl])⟩
              · have hle : t.samples_consumed + min bufLen t.rb.data.length ≤
                    t.samples_consumed + t.rb.data.length + t.pending.length := by omega
                have hle2 : t.samples_consumed + min bufLen t.rb.data.length ≤
                    t.shared.total_frames * t.shared.channels :=
                  le_trans (le_trans hle h)
                    (Nat.mul_le_mul_right _ (le_trans h1 h2))
                exact natDivLeOfLeMul hle2
              · simp only [List.length_drop]
                refine le_trans ?_ h
                omega
            · rw [callbackStep_underrun bufLen hp hfl hsk hr]
              exact ⟨h1, h2, h3, h4, h5⟩
      · rw [callbackStep_paused bufLen hp]
        exact ⟨h1, h2, h3, h4, h5⟩

/-! ## Helper lemmas about the device callback -/

theorem deviceCallback_shared_stop (st : ConsumerState) (n : Nat) :
    (deviceCallback st n).state.shared.should_stop = st.shared.should_stop := by
  unfold deviceCallback
  dsimp only
  split
  · rfl
  · split
    · rfl
    · split
      · rfl
      · split <;> rfl

theorem deviceCallback_rb_le (st : ConsumerState) (n : Nat) :
    (deviceCallback st n).state.rb.data.length ≤ st.rb.data.length := by
  unfold deviceCallback
  dsimp only
  split
  · exact le_refl _
  · split
    · simp [RingBuffer.skip]
    · split
      · exact le_refl _
      · split
        · simp [RingBuffer.pop_slice]
        · exact le_refl _

/-! ## The claims -/

/-- **C1.**  In every device-callback invocation with `is_playing = true` and
`buffer_flush_pending = true`, the callback skips exactly the occupied
number of samples (leaving the ring buffer empty), sets the consumed-sample
counter to `current_frame * channels`, clears `buffer_flush_pending`,
writes silence to the entire output buffer, and does nothing else — in
particular it pops no sample, so no pre-seek sample is emitted once the
flush completes. -/
theorem C1_flush_callback (st : ConsumerState) (bufLen : Nat)
    (hplay : st.shared.is_playing = true)
    (hflush : st.shared.buffer_flush_pending = true) :
    deviceCallback st bufLen =
      { output := silence bufLen
        state := { shared := { st.shared with buffer_flush_pending := false }
                   rb := st.rb.skip st.rb.occupied_len
                   samples_consumed := st.shared.current_frame * st.shared.channels }
        locks := 1 } ∧
    (st.rb.skip st.rb.occupied_len).data = [] := by
  constructor
  · simp [deviceCallback, hplay, hflush]
  · simp [RingBuffer.skip, RingBuffer.occupied_len]

theorem C1_flush_callback_witness :
    c1State.shared.is_playing = true ∧ c1State.shared.buffer_flush_pending = true ∧
    (deviceCallback c1State 4 =
      { output := silence 4
        state := { shared := { c1State.shared with buffer_flush_pending := false }
                   rb := c1State.rb.skip c1State.rb.occupied_len
                   samples_consumed := c1State.shared.current_frame * c1State.shared.channels }
        locks := 1 } ∧
     (c1State.rb.skip c1State.rb.occupied_len).data = []) :=
  ⟨rfl, rfl, C1_flush_callback c1State 4 rfl rfl⟩

/-- **C2.**  In every device-callback invocation with `is_playing = false`
(the state `pause()` establishes), the callback writes `0.0` to every
output slot and leaves the consumer state — in particular the ring buffer
and its occupied length — completely unchanged, and this holds across any
number of consecutive invocations. -/
theorem C2_paused_silence (p : AudioPlayer) (st : ConsumerState) (bufLen : Nat)
    (lens : List Nat) (hp : st.shared.is_playing = false) :
    (AudioPlayer.pause p).state.is_playing = false ∧
    deviceCallback st bufLen = { output := silence bufLen, state := st, locks := 0 } ∧
    runCallbacks st lens = st := by
  have hone : ∀ n, deviceCallback st n =
      { output := silence n, state := st, locks := 0 } := by
    intro n; simp [deviceCallback, hp]
  have hrun : ∀ ls : List Nat, runCallbacks st ls = st := by
    intro ls
    induction ls with
    | nil => rfl
    | cons n rest ih =>
        show runCallbacks (deviceCallback st n).state rest = st
        rw [hone n]
        exact ih
  exact ⟨rfl, hone bufLen, hrun lens⟩

theorem C2_paused_silence_witness :
    c2State.shared.is_playing = false ∧
    ((AudioPlayer.pause AudioPlayer.new).state.is_playing = false ∧
     deviceCallback c2State 3 = { output := silence 3, state := c2State, locks := 0 } ∧
     runCallbacks c2State [3, 3, 3] = c2State) :=
  ⟨rfl, C2_paused_silence AudioPlayer.new c2State 3 [3, 3, 3] rfl⟩

/-- **C3.**  When the decoder services a seek and the source seek succeeds
landing at `actual_ts`, it writes the *actual* landed frame into
`current_frame` (the requested `seek_to_frame` is not consulted — the
equality holds for every `landed`, equal to the request or not), sets
`buffer_flush_pending`, resets the decoder (`decoder_reset = true`) and
clears `seek_pending`; when the source seek fails, only `seek_pending` is
cleared, the decoder is not reset, and the decoder loop continues from the
prior source position (`src_pos` and `decoder_done` unchanged). -/
theorem C3_decoder_seek (s : SharedPlaybackState) (landed : Nat) (t : Session) :
    (handleSeekRequest s (.ok landed)).shared =
      { s with current_frame := landed, buffer_flush_pending := true,
               seek_pending := false } ∧
    (handleSeekRequest s (.ok landed)).decoder_reset = true ∧
    (handleSeekRequest s .err).shared = { s with seek_pending := false } ∧
    (handleSeekRequest s .err).decoder_reset = false ∧
    (decoderSeekErrStep t).src_pos = t.src_pos ∧
    (decoderSeekErrStep t).decoder_done = t.decoder_done :=
  ⟨rfl, rfl, rfl, rfl, rfl, rfl⟩

/-- **C6 (counterexample).**  The claim that the device callback acquires
no lock is false: in an ordinary playing invocation (no flush, no seek
pending) the callback locks the consumer `Mutex`
(`consumer_clone.lock().unwrap()`, playback.rs line 563) — here even
though the buffer turns out to be empty. -/
theorem C6_counterexample :
    c6State.shared.is_playing = true ∧ (deviceCallback c6State 4).locks = 1 := by
  constructor
  · rfl
  · decide

/-- **C6 (amended).**  Coordination flags are read without locks, but the
ring-buffer consumer handle is shared with the callback behind a `Mutex`:
the callback acquires that `Mutex` exactly once in every invocation that
touches the ring buffer (playing, and either flushing or not skipping for
a pending seek) and acquires no lock otherwise; it performs no sleep and
only writes the provided buffer. -/
theorem C6_lock_discipline (st : ConsumerState) (bufLen : Nat) :
    (deviceCallback st bufLen).locks =
      if st.shared.is_playing &&
         (st.shared.buffer_flush_pending || !st.shared.seek_pending) then 1 else 0 := by
  rcases Bool.eq_false_or_eq_true st.shared.is_playing with hp | hp
  · rcases Bool.eq_false_or_eq_true st.shared.buffer_flush_pending with hf | hf
    · simp [deviceCallback, hp, hf]
    · rcases Bool.eq_false_or_eq_true st.shared.seek_pending with hs | hs
      · simp [deviceCallback, hp, hf, hs]
      · by_cases hr : 0 < min bufLen st.rb.occupied_len
        · simp [deviceCallback, hp, hf, hs, hr]
        · simp [deviceCallback, hp, hf, hs, hr]
  · simp [deviceCallback, hp]

/-- **C10.**  After the decoder services a seek request, `seek_pending` is
false whether or not the source seek succeeded; on failure,
`current_frame`, `buffer_flush_pending` and the decoder's internal state
(`decoder_reset = false`) are all left unchanged — so a failed seek cannot
leave the callback stuck writing silence behind a `seek_pending` flag. -/
theorem C10_seek_always_cleared (s : SharedPlaybackState) (r : SourceSeekResult) :
    (handleSeekRequest s r).shared.seek_pending = false ∧
    (handleSeekRequest s .err).shared.current_frame = s.current_frame ∧
    (handleSeekRequest s .err).shared.buffer_flush_pending = s.buffer_flush_pending ∧
    (handleSeekRequest s .err).decoder_reset = false := by
  refine ⟨?_, rfl, rfl, rfl⟩
  cases r <;> rfl

/-- **C4 (counterexample).**  The consumer never clamps `current_frame`
against `total_frame_count`, and `play_file` stores
`n_frames.unwrap_or(0)`: for a source that yields one real stereo frame
while its metadata reports no frame count (`total_frames = 0`), a
reachable decode–push–callback run stores `current_frame = 1 >
total_frame_count = 0`. -/
theorem C4_counterexample :
    ReachableSession 1 44100 2 0 c4Final ∧
    c4Final.shared.total_frames < c4Final.shared.current_frame := by
  constructor
  · exact Relation.ReflTransGen.tail
      (Relation.ReflTransGen.tail
        (Relation.ReflTransGen.tail Relation.ReflTransGen.refl
          (Step.decoderDecode (initSession 44100 2 0) 1 [1, 1]
            rfl rfl rfl rfl (by decide) (by decide)))
        (Step.decoderPush c4Step1 rfl rfl rfl))
      (Step.callbackRun c4Step2 2 rfl)
  · decide

/-- **C4 (amended).**  Provided the file's metadata is accurate — the
decode source yields at most `total_frame_count` frames and successful
seeks land within the stream — the consumer never advances
`current_frame` past `total_frame_count`, in every reachable state of the
playback session (including states reached through seeks and flushes). -/
theorem C4_position_bounded (src_total sr ch total : Nat) (t : Session)
    (hmeta : src_total ≤ total)
    (hreach : ReachableSession src_total sr ch total t) :
    t.shared.current_frame ≤ t.shared.total_frames := by
  unfold ReachableSession at hreach
  have hinv : SessionInv src_total t := by
    induction hreach with
    | refl => exact sessionInv_init hmeta
    | tail hs hstep ih => exact sessionInv_step hstep ih
  exact hinv.2.2.1

theorem C4_position_bounded_witness :
    (initSession 44100 2 100).shared.current_frame ≤
      (initSession 44100 2 100).shared.total_frames :=
  C4_position_bounded 100 44100 2 100 (initSession 44100 2 100)
    (Nat.le_refl 100) Relation.ReflTransGen.refl

/-- **C5 (counterexample).**  `play_file` does not create a fresh Shared
Playback State: it clones the `Arc` made once in `AudioPlayer::new`
(`state_id` is unchanged across plays), and its reset phase writes
`should_stop := false` back onto that same object after a `stop()` had
latched it to `true` — refuting both the freshness and the one-way-latch
reading of the claim. -/
theorem C5_counterexample :
    c5AfterStop.state.should_stop = true ∧
    c5AfterSecondPlay.state.should_stop = false ∧
    c5AfterSecondPlay.state_id = c5AfterStop.state_id ∧
    c5AfterSecondPlay.state_id = AudioPlayer.new.state_id := by
  decide

/-- **C5 (amended).**  Each successful `play_file` creates a fresh Ring
Buffer (a newly allocated `HeapRb`, witnessed by a previously unused
allocation id) but reuses the one Shared Playback State object created in
`AudioPlayer::new` (`state_id` unchanged), resetting its fields — in
particular writing `should_stop := false`.  Within a session,
`should_stop = true` is a one-way latch: no session step (facade
transport call, decoder action or device callback) ever clears it; only
the next `play_file` does. -/
theorem C5_fresh_ring_reused_state (p : AudioPlayer) (path : String)
    (input : ProbeInput) (p' : AudioPlayer)
    (hok : (p.play_file path input).1 = .ok p')
    (src_total : Nat) (t t' : Session)
    (hstop : t.shared.should_stop = true) (hstep : Step src_total t t') :
    p'.ring_id = some p.next_alloc ∧
    p'.next_alloc = p.next_alloc + 1 ∧
    p'.state_id = p.state_id ∧
    p'.state.should_stop = false ∧
    t'.shared.should_stop = true := by
  have hlatch : t'.shared.should_stop = true := by
    cases hstep with
    | pause => exact hstop
    | resume => exact hstop
    | toggle => exact hstop
    | seekRequest f => exact hstop
    | stopFlags => rfl
    | stopReset hd hp => exact hstop
    | decoderSeekOk landed h1 h2 h3 h4 => exact hstop
    | decoderSeekErr h1 h2 h3 => exact hstop
    | decoderDecode k samples h1 h2 h3 h4 h5 h6 => exact hstop
    | decoderBadPacket k h1 h2 h3 h4 h5 => exact hstop
    | decoderPush h1 h2 h3 => exact hstop
    | decoderEos h1 h2 h3 h4 => exact hstop
    | decoderExit h1 h2 => exact hstop
    | playbackExit h1 h2 => exact hstop
    | callbackRun bufLen h1 =>
        show (deviceCallback _ bufLen).state.shared.should_stop = true
        rw [deviceCallback_shared_stop]
        exact hstop
  cases hpr : probe_audio_file path input with
  | error e => simp [AudioPlayer.play_file, hpr] at hok
  | ok m =>
    obtain ⟨sr, ch, total⟩ := m
    simp only [AudioPlayer.play_file, hpr] at hok
    obtain rfl := (Except.ok.injEq _ _).mp hok.symm
    exact ⟨rfl, rfl, rfl, rfl, hlatch⟩

theorem C5_fresh_ring_reused_state_witness :
    c5AfterSecondPlay.ring_id = some c5AfterStop.next_alloc ∧
    c5AfterSecondPlay.next_alloc = c5AfterStop.next_alloc + 1 ∧
    c5AfterSecondPlay.state_id = c5AfterStop.state_id ∧
    c5AfterSecondPlay.state.should_stop = false ∧
    (pauseStep c7Stopped).shared.should_stop = true :=
  C5_fresh_ring_reused_state c5AfterStop "two.mp3" stereoProbe
    c5AfterSecondPlay rfl 0 c7Stopped (pauseStep c7Stopped) rfl
    (Step.pause c7Stopped)

/-- **C7.**  Once `should_stop` is set, stop is bounded: from any session
state with `should_stop = true`, the decoder thread's only remaining
moves are its exit (enabled immediately, whether at the outer-loop head
or at the inner push-retry re-check, even with a full ring buffer: no
step from such a state decodes another packet, advances the source, or
pushes a sample), the playback thread's wait loop exits, the flag can
never be cleared by any session step, and a `stop()` call with no
threads running performs zero `join()`s, returning without blocking. -/
theorem C7_stop_bounded (src_total : Nat) (t : Session) (p : AudioPlayer)
    (hstop : t.shared.should_stop = true) :
    (t.decoder_done = false → Step src_total t (decoderExitStep t)) ∧
    (t.playback_done = false → Step src_total t (playbackExitStep t)) ∧
    (∀ t', Step src_total t t' →
        t'.shared.should_stop = true ∧
        t'.src_pos = t.src_pos ∧
        t'.rb.data.length ≤ t.rb.data.length ∧
        t'.pending.length ≤ t.pending.length) ∧
    (p.decoder_thread = false → p.playback_thread = false →
        (AudioPlayer.stop p).2 = 0) := by
  refine ⟨fun hd => Step.decoderExit t hstop hd,
          fun hp => Step.playbackExit t hstop hp, ?_, fun hd hp => ?_⟩
  · intro t' hstep
    cases hstep with
    | pause => exact ⟨hstop, rfl, le_refl _, le_refl _⟩
    | resume => exact ⟨hstop, rfl, le_refl _, le_refl _⟩
    | toggle => exact ⟨hstop, rfl, le_refl _, le_refl _⟩
    | seekRequest f => exact ⟨hstop, rfl, le_refl _, le_refl _⟩
    | stopFlags => exact ⟨rfl, rfl, le_refl _, le_refl _⟩
    | stopReset hd hp => exact ⟨hstop, rfl, le_refl _, le_refl _⟩
    | decoderSeekOk landed h1 h2 h3 h4 => rw [hstop] at h1; cases h1
    | decoderSeekErr h1 h2 h3 => rw [hstop] at h1; cases h1
    | decoderDecode k samples h1 h2 h3 h4 h5 h6 => rw [hstop] at h1; cases h1
    | decoderBadPacket k h1 h2 h3 h4 h5 => rw [hstop] at h1; cases h1
    | decoderPush h1 h2 h3 => rw [hstop] at h1; cases h1
    | decoderEos h1 h2 h3 h4 => rw [hstop] at h1; cases h1
    | decoderExit h1 h2 => exact ⟨hstop, rfl, le_refl _, Nat.zero_le _⟩
    | playbackExit h1 h2 => exact ⟨hstop, rfl, le_refl _, le_refl _⟩
    | callbackRun bufLen h1 =>
        refine ⟨?_, rfl, ?_, le_refl _⟩
        · show (deviceCallback _ bufLen).state.shared.should_stop = true
          rw [deviceCallback_shared_stop]
          exact hstop
        · exact deviceCallback_rb_le _ bufLen
  · simp [AudioPlayer.stop, hd, hp]

theorem C7_stop_bounded_witness :
    (c7Stopped.decoder_done = false → Step 0 c7Stopped (decoderExitStep c7Stopped)) ∧
    (c7Stopped.playback_done = false → Step 0 c7Stopped (playbackExitStep c7Stopped)) ∧
    (∀ t', Step 0 c7Stopped t' →
        t'.shared.should_stop = true ∧
        t'.src_pos = c7Stopped.src_pos ∧
        t'.rb.data.length ≤ c7Stopped.rb.data.length ∧
        t'.pending.length ≤ c7Stopped.pending.length) ∧
    (AudioPlayer.new.decoder_thread = false → AudioPlayer.new.playback_thread = false →
        (AudioPlayer.stop AudioPlayer.new).2 = 0) :=
  C7_stop_bounded 0 c7Stopped AudioPlayer.new rfl

/-- **C8.**  For every path whose probe fails (unopenable file,
unrecognized format, no audio track, or missing sample rate), `play_file`
returns that error synchronously and spawns neither thread; for every
path that probes successfully, the metadata is stored into the shared
state, and the event trace places the metadata store strictly before both
thread spawns. -/
theorem C8_probe_before_spawn (p : AudioPlayer) (path : String) (input : ProbeInput) :
    (∀ e, probe_audio_file path input = .error e →
      (p.play_file path input).1 = .error e ∧
      PlayEvent.spawnedDecoder ∉ (p.play_file path input).2 ∧
      PlayEvent.spawnedPlayback ∉ (p.play_file path input).2) ∧
    (∀ sr ch total, probe_audio_file path input = .ok (sr, ch, total) →
      ∃ p', (p.play_file path input).1 = .ok p' ∧
        p'.state.sample_rate = sr ∧ p'.state.channels = ch ∧
        p'.state.total_frames = total ∧
        p'.decoder_thread = true ∧ p'.playback_thread = true ∧
        (p.play_file path input).2 =
          [.stoppedPrevious, .storedMetadata sr ch total, .resetFlags,
           .createdRing p.next_alloc RING_BUFFER_SIZE,
           .spawnedDecoder, .spawnedPlayback]) := by
  constructor
  · intro e he
    refine ⟨?_, ?_, ?_⟩ <;> simp [AudioPlayer.play_file, he]
  · intro sr ch total hok
    simp only [AudioPlayer.play_file, hok]
    exact ⟨_, rfl, rfl, rfl, rfl, rfl, rfl, rfl⟩

theorem C8_probe_before_spawn_witness :
    ∃ p', ((AudioPlayer.new).play_file "b.wav" stereoProbe).1 = .ok p' ∧
      p'.state.sample_rate = 44100 ∧ p'.state.channels = 2 ∧
      p'.state.total_frames = 441000 ∧
      p'.decoder_thread = true ∧ p'.playback_thread = true ∧
      ((AudioPlayer.new).play_file "b.wav" stereoProbe).2 =
        [.stoppedPrevious, .storedMetadata 44100 2 441000, .resetFlags,
         .createdRing AudioPlayer.new.next_alloc RING_BUFFER_SIZE,
         .spawnedDecoder, .spawnedPlayback] :=
  (C8_probe_before_spawn AudioPlayer.new "b.wav" stereoProbe).2 44100 2 441000 rfl

/-- **C9 (counterexample).**  The ring buffer's capacity is the fixed
constant 480000 while the probe accepts any channel count the codec
reports: a 7-channel file loads successfully, and 480000 is not a
multiple of 7, so the claimed multiple-of-channel-count property fails. -/
theorem C9_counterexample :
    probe_audio_file "surround.wav" (.ok [c9SevenChannelTrack]) = .ok (44100, 7, 1000) ∧
    RING_BUFFER_SIZE % 7 ≠ 0 := by
  constructor
  · rfl
  · decide

/-- **C9 (amended).**  Every successfully loaded file gets a ring buffer
of the fixed capacity `RING_BUFFER_SIZE = 480000`; that capacity is a
multiple of the file's channel count exactly when the channel count
divides 480000 — which holds for mono, stereo and the other common
layouts (1, 2, 4, 6, 8 channels) but not for every channel count the
probe accepts. -/
theorem C9_capacity_multiple (p : AudioPlayer) (path : String) (input : ProbeInput)
    (p' : AudioPlayer) (hok : (p.play_file path input).1 = .ok p')
    (hdvd : p'.state.channels ∣ RING_BUFFER_SIZE) :
    p'.ring_capacity = some RING_BUFFER_SIZE ∧
    RING_BUFFER_SIZE % p'.state.channels = 0 := by
  constructor
  · cases hpr : probe_audio_file path input with
    | error e => simp [AudioPlayer.play_file, hpr] at hok
    | ok m =>
      obtain ⟨sr, ch, total⟩ := m
      simp only [AudioPlayer.play_file, hpr] at hok
      obtain rfl := (Except.ok.injEq _ _).mp hok.symm
      rfl
  · obtain ⟨c, hc⟩ := hdvd
    rw [hc, Nat.mul_mod_right]

theorem C9_capacity_multiple_witness :
    c9Player.ring_capacity = some RING_BUFFER_SIZE ∧
    RING_BUFFER_SIZE % c9Player.state.channels = 0 :=
  C9_capacity_multiple AudioPlayer.new "a.wav" stereoProbe c9Player
    rfl (by decide)

end Hermeneia
